import Mathlib

/-!
Shallow embedding of the Linux usbfs transfer core
(src/src/platform/linux_usbfs/transfer.rs of nrot/nusb).

The embedding models:
  - the fixed-layout kernel Urb record and the iso packet-record array;
  - the TransferData descriptor with its buffer-ownership fields;
  - an allocation-tracking heap in which every block is recorded with the
    Layout it was allocated with, and deallocation fails (returns none,
    the model of undefined behaviour / a panic) when the pointer is not
    live or the layout does not match the one used at allocation time;
  - machine-integer casts (i32 and u32 and usize) as explicit modular
    arithmetic on Nat and Int;
  - debug assertions and unwrap panics as Option failure.

Types that live outside src/ (Buffer, Allocator, Direction, TransferError
and the errno translation table) are modelled from the spec where noted.
-/

/-- Transfer kinds (crate::descriptors::TransferType). -/
inductive TransferType
  | Control
  | Interrupt
  | Bulk
  | Isochronous
  deriving DecidableEq, Repr

/-- Modelled from the spec: transfer direction, derived solely from the top
bit of the endpoint address (crate::transfer::Direction is outside src/). -/
inductive Direction
  | In
  | Out
  deriving DecidableEq, Repr

/-- Modelled from the spec: the allocator identity tag of a buffer, naming
which deallocation routine must reclaim it (crate::transfer::Allocator is
outside src/); Default plus other strategies abstracted by an id. -/
inductive Allocator
  | Default
  | Tagged (id : Nat)
  deriving DecidableEq, Repr

/-- Modelled from the spec: semantic transfer-error kinds delivered through
Completion.status (crate::transfer::TransferError is outside src/). -/
inductive TransferError
  | Stall
  | Cancelled
  | Disconnected
  | Fault
  | UnknownErr
  deriving DecidableEq, Repr

/-- Modelled from the spec: the external errno translation table
(errno_to_transfer_error, outside src/): a map from the absolute value of
a kernel status code to a transfer-error kind; a code with no known
mapping (none) is a fatal ABI-mismatch abort per spec section 4.3. -/
def ErrTable : Type := Nat → Option TransferError

/-- One per-packet record of an isochronous transfer
(platform::linux_usbfs::usbfs::IsoPacketDesc; fields are C unsigned int). -/
structure IsoPacketDesc where
  length : Nat
  actual_length : Nat
  status : Nat
  deriving DecidableEq, Repr

/-- The fixed-layout kernel URB record (usbfs::Urb).  Signed C int fields
are Int (with casts made explicit at use sites), unsigned ones are Nat. -/
structure Urb where
  ep_type : Nat
  endpoint : Nat
  status : Int
  flags : Nat
  buffer : Nat
  buffer_length : Int
  actual_length : Int
  start_frame : Int
  number_of_packets_or_stream_id : Nat
  error_count : Int
  signr : Nat
  usercontext : Nat
  deriving DecidableEq, Repr

/-- Modelled from the spec: a Buffer describes a raw memory block by
address, current length, requested length (capacity the kernel may fill,
for inbound transfers), capacity and allocator identity tag
(crate::transfer::Buffer is outside src/; the fields are exactly the ones
the src code reads: ptr, len, requested_len, capacity, allocator). -/
structure Buffer where
  ptr : Nat
  len : Nat
  requested_len : Nat
  capacity : Nat
  allocator : Allocator
  deriving DecidableEq, Repr

/-- An allocation layout: size and alignment, as in alloc::Layout. -/
structure Layout where
  size : Nat
  align : Nat
  deriving DecidableEq, Repr

/-- Allocation-tracking heap: a fresh-address counter and the list of live
blocks, each recorded with the Layout it was allocated with. -/
structure Heap where
  ctr : Nat
  live : List (Nat × Layout)
  deriving DecidableEq, Repr

/-- The empty heap.  The counter starts above the dangling sentinel
address used for empty vectors, as real heap blocks never sit there. -/
def Heap.empty : Heap := ⟨1000, []⟩

/-- Allocate a block with the given layout, returning its fresh address. -/
def Heap.alloc (h : Heap) (l : Layout) : Nat × Heap :=
  (h.ctr, ⟨h.ctr + 1, (h.ctr, l) :: h.live⟩)

/-- Deallocate the block at address p, checking that it is live and was
allocated with exactly the layout l; none models undefined behaviour
(double free or layout-mismatched free). -/
def Heap.dealloc (h : Heap) (p : Nat) (l : Layout) : Option Heap :=
  match h.live.find? (fun e => e.1 == p) with
  | some e => if e.2 = l then some ⟨h.ctr, h.live.filter (fun e => e.1 != p)⟩ else none
  | none => none

/-- Size of usbfs::Urb on 64-bit Linux (fixed C ABI layout). -/
def urbSize : Nat := 64

/-- Alignment of usbfs::Urb on 64-bit Linux. -/
def urbAlign : Nat := 8

/-- Size of usbfs::IsoPacketDesc (three C unsigned ints). -/
def isoDescSize : Nat := 12

/-- Layout of a lone boxed Urb header, as allocated by Box::new in
TransferData::new and assumed by Box::from_raw. -/
def boxedUrbLayout : Layout := ⟨urbSize, urbAlign⟩

/-- Layout of the combined header plus n-entry packet-record array block
allocated by set_iso_buffer (alloc_zeroed at transfer.rs lines 145-153). -/
def combinedLayout (n : Nat) : Layout := ⟨urbSize + n * isoDescSize, urbAlign⟩

/-- Address of the dangling pointer produced by Vec::new().as_mut_ptr(),
used by the src code as the detached placeholder buffer pointer. -/
def emptyVecPtr : Nat := 1

/-- Address of the static marker string stored into urb.usercontext by
set_iso_buffer (transfer.rs line 181); the value itself is never read. -/
def userContextAddr : Nat := 777

/-- Rust cast x as u32 of an i32 value x: two-complement reinterpretation. -/
def u32_of_i32 (x : Int) : Nat := (x % (2 ^ 32 : Int)).toNat

/-- Rust cast x as usize of an i32 value x: sign extension to 64 bits. -/
def usize_of_i32 (x : Int) : Nat := (x % (2 ^ 64 : Int)).toNat

/-- Rust cast n as i32 of a usize value n: truncate and reinterpret. -/
def i32_of_usize (n : Nat) : Int :=
  let r : Nat := n % 2 ^ 32
  if r < 2 ^ 31 then (r : Int) else (r : Int) - 2 ^ 32

/-- Rust cast n as u32 of a usize value n: truncation. -/
def u32_of_usize (n : Nat) : Nat := n % 2 ^ 32

/-- The minimum value of the i32 type. -/
def i32Min : Int := -(2 ^ 31)

/-- Debug-build semantics of i32::abs, as invoked on the raw status field
(transfer.rs line 255): the absolute value, except that the absolute value
of i32::MIN is not representable and the call overflows (panics). -/
def abs_i32 (x : Int) : Option Nat :=
  if x = i32Min then none else some x.natAbs

/-- Status decoding (TransferData::status, transfer.rs lines 248-257): a
zero raw status is success; otherwise the absolute value of the status is
mapped through the external errno translation table.  none models a panic
(absolute-value overflow, or an unknown code aborting per the spec). -/
def decode_status (tbl : ErrTable) (s : Int) : Option (Except TransferError Unit) :=
  if s = 0 then some (Except.ok ())
  else
    match abs_i32 s with
    | none => none
    | some a =>
      match tbl a with
      | none => none
      | some e => some (Except.error e)

/-- Direction::from_address, modelled from the spec: inbound exactly when
the top bit (0x80) of the endpoint address is set. -/
def Direction.from_address (addr : Nat) : Direction :=
  if addr &&& 0x80 = 0 then Direction.Out else Direction.In

/-- Kind-to-kernel-type-code mapping (transfer.rs lines 75-80; the four
USBDEVFS_URB_TYPE constants of the usbfs module). -/
def urbTypeCode : TransferType → Nat
  | TransferType.Isochronous => 0
  | TransferType.Interrupt => 1
  | TransferType.Control => 2
  | TransferType.Bulk => 3

/-- The Linux-specific transfer state (TransferData, transfer.rs lines
37-44).  urbPtr is the address of the owned urb allocation; urb holds the
pointee's fields; packets holds the iso packet-record array adjoining the
header; urbIso is the urb_iso pointer (none models null).  The deadline
field (wall-clock time, untouched by the modelled operations) is omitted. -/
structure TransferData where
  urbPtr : Nat
  urb : Urb
  packets : List IsoPacketDesc
  urbIso : Option Nat
  ep_type : TransferType
  capacity : Nat
  allocator : Allocator
  deriving DecidableEq, Repr

/-- A completed transfer (crate::transfer::Completion as constructed at
transfer.rs lines 219-229): decoded status, kernel actual length, and the
detached buffer now solely owned by the caller. -/
structure Completion where
  status : Except TransferError Unit
  actual_len : Nat
  buffer : Buffer
  deriving Repr

/-- TransferData::new (transfer.rs lines 73-106): box a zero-initialized
urb header (buffer set to the empty-vec dangling pointer), no iso array,
zero capacity, default allocator. -/
def TransferData.new (endpoint : Nat) (ep_type : TransferType) (h : Heap) :
    TransferData × Heap :=
  let a := h.alloc boxedUrbLayout
  ({ urbPtr := a.1,
     urb := { ep_type := urbTypeCode ep_type, endpoint := endpoint, status := 0,
              flags := 0, buffer := emptyVecPtr, buffer_length := 0,
              actual_length := 0, start_frame := 0,
              number_of_packets_or_stream_id := 0, error_count := 0, signr := 0,
              usercontext := 0 },
     packets := [], urbIso := none, ep_type := ep_type, capacity := 0,
     allocator := Allocator.Default }, a.2)

/-- TransferData::set_buffer (transfer.rs lines 125-137).  The
debug_assert that the descriptor owns no buffer (capacity = 0) is
modelled as Option failure; on success the descriptor takes the buffer's
address, capacity and allocator tag, zeroes the actual length, and sets
the requested length from the direction-appropriate buffer field. -/
def TransferData.set_buffer (t : TransferData) (buf : Buffer) : Option TransferData :=
  if t.capacity = 0 then
    some { t with
      capacity := buf.capacity,
      urb := { t.urb with
        buffer := buf.ptr,
        actual_length := 0,
        buffer_length :=
          match Direction.from_address t.urb.endpoint with
          | Direction.Out => i32_of_usize buf.len
          | Direction.In => i32_of_usize buf.requested_len },
      allocator := buf.allocator }
  else none

/-- The USBFS_URB_ISO_ASAP kernel flag (transfer.rs line 178). -/
def USBFS_URB_ISO_ASAP : Nat := 0x02

/-- All-zero urb record, the result of alloc_zeroed. -/
def zeroUrb : Urb :=
  { ep_type := 0, endpoint := 0, status := 0, flags := 0, buffer := 0,
    buffer_length := 0, actual_length := 0, start_frame := 0,
    number_of_packets_or_stream_id := 0, error_count := 0, signr := 0,
    usercontext := 0 }

/-- TransferData::set_iso_buffer (transfer.rs lines 139-189), faithfully
including the branch on urb_iso nullness that selects how the OLD urb
block is released: when urb_iso is non-null the old block is released
through Box::from_raw (header-only layout); when urb_iso is null it is
released through alloc::dealloc with a layout recomputed from the current
packet count.  The debug asserts (isochronous kind, nonzero packet size)
are Option failure, as is any layout-mismatched deallocation. -/
def TransferData.set_iso_buffer (t : TransferData) (buf : Buffer)
    (iso_packet_amount : Nat) (iso_packet_size : Nat) (h : Heap) :
    Option (TransferData × Heap) :=
  if t.ep_type ≠ TransferType.Isochronous then none
  else if iso_packet_size = 0 then none
  else
    let a := h.alloc (combinedLayout iso_packet_amount)
    let old_urb := t.urb
    let hOpt : Option Heap :=
      match t.urbIso with
      | some _ => a.2.dealloc t.urbPtr boxedUrbLayout
      | none => a.2.dealloc t.urbPtr (combinedLayout old_urb.number_of_packets_or_stream_id)
    match hOpt with
    | none => none
    | some h1 =>
      let t1 := { t with
        urbPtr := a.1,
        urbIso := some (a.1 + urbSize),
        urb := { zeroUrb with
          endpoint := old_urb.endpoint,
          ep_type := old_urb.ep_type,
          number_of_packets_or_stream_id := u32_of_usize iso_packet_amount } }
      match t1.set_buffer buf with
      | none => none
      | some t2 =>
        some ({ t2 with
          urb := { t2.urb with
                    flags := USBFS_URB_ISO_ASAP,
                    usercontext := userContextAddr },
          packets := List.replicate iso_packet_amount
            ⟨iso_packet_size, 0, 0⟩ }, h1)

/-- TransferData::end_iso (transfer.rs lines 191-201): none for
non-isochronous kinds; otherwise whether every one of the
number_of_packets packet records read from the iso array has status 0. -/
def TransferData.end_iso (t : TransferData) : Option Bool :=
  if t.ep_type = TransferType.Isochronous then
    some ((t.packets.take t.urb.number_of_packets_or_stream_id).all
      (fun p => p.status == 0))
  else none

/-- TransferData::take_completion (transfer.rs lines 203-230): decode the
status (none models a panic there), compute the by-direction length,
detach the buffer by swapping in the empty-vec placeholder and zeroing
the length/capacity/allocator fields, and bundle the Completion. -/
def TransferData.take_completion (tbl : ErrTable) (t : TransferData) :
    Option (Completion × TransferData) :=
  match decode_status tbl t.urb.status with
  | none => none
  | some st =>
    some
      ({ status := st,
         actual_len := usize_of_i32 t.urb.actual_length,
         buffer :=
           { ptr := t.urb.buffer,
             len :=
               match Direction.from_address t.urb.endpoint with
               | Direction.Out => u32_of_i32 t.urb.buffer_length
               | Direction.In => u32_of_i32 t.urb.actual_length,
             requested_len := u32_of_i32 t.urb.buffer_length,
             capacity := t.capacity,
             allocator := t.allocator } },
       { t with
         urb := { t.urb with
                   buffer := emptyVecPtr,
                   buffer_length := 0,
                   actual_length := 0 },
         capacity := 0,
         allocator := Allocator.Default })

/-- The 8-byte control setup header size (crate::transfer::SETUP_PACKET_SIZE). -/
def SETUP_PACKET_SIZE : Nat := 8

/-- The maximum value of the platform size type (64-bit usize). -/
def USIZE_MAX : Nat := 2 ^ 64 - 1

/-- usize::checked_add as used at transfer.rs lines 110 and 119. -/
def checked_add (a b : Nat) : Option Nat :=
  if a + b ≤ USIZE_MAX then some (a + b) else none

/-- Modelled from the spec: Buffer::new(cap) (outside src/) yields a
default-allocated empty buffer of the given capacity whose requested
length is the capacity the kernel may fill; a zero-capacity buffer holds
the dangling pointer and owns no allocation. -/
def Buffer.new (cap : Nat) (h : Heap) : Buffer × Heap :=
  if cap = 0 then (⟨emptyVecPtr, 0, cap, cap, Allocator.Default⟩, h)
  else
    let a := h.alloc ⟨cap, 1⟩
    (⟨a.1, 0, cap, cap, Allocator.Default⟩, a.2)

/-- Modelled from the spec: dropping a detached Buffer releases its block
through its allocator when it owns one (capacity nonzero); a
zero-capacity buffer releases nothing. -/
def Buffer.dropBuf (b : Buffer) (h : Heap) : Option Heap :=
  if b.capacity = 0 then some h else h.dealloc b.ptr ⟨b.capacity, 1⟩

/-- TransferData::new_control_out (transfer.rs lines 108-115): an Out
control descriptor whose buffer is sized by checked_add of the setup
header and payload sizes (unwrap on overflow is Option failure), filled
with the setup packet followed by the payload. -/
def TransferData.new_control_out (dataLen : Nat) (h : Heap) :
    Option (TransferData × Heap) :=
  let s0 := TransferData.new 0x00 TransferType.Control h
  match checked_add SETUP_PACKET_SIZE dataLen with
  | none => none
  | some total =>
    let b0 := Buffer.new total s0.2
    let b1 := b0.1
    let buf := { b1 with len := b1.len + SETUP_PACKET_SIZE + dataLen }
    (s0.1.set_buffer buf).map (fun t => (t, b0.2))

/-- TransferData::new_control_in (transfer.rs lines 117-123): an In
control descriptor whose buffer is sized by checked_add of the setup
header size and the requested length, filled with the setup packet. -/
def TransferData.new_control_in (length : Nat) (h : Heap) :
    Option (TransferData × Heap) :=
  let s0 := TransferData.new 0x80 TransferType.Control h
  match checked_add SETUP_PACKET_SIZE length with
  | none => none
  | some total =>
    let b0 := Buffer.new total s0.2
    let b1 := b0.1
    let buf := { b1 with len := b1.len + SETUP_PACKET_SIZE }
    (s0.1.set_buffer buf).map (fun t => (t, b0.2))

/-- Drop for TransferData (transfer.rs lines 280-287): force completion
extraction (dropping the returned Completion releases its buffer), then
release the urb allocation through Box::from_raw, i.e. with the
header-only boxed layout. -/
def TransferData.dropD (tbl : ErrTable) (t : TransferData) (h : Heap) : Option Heap :=
  match t.take_completion tbl with
  | none => none
  | some ct =>
    match ct.1.buffer.dropBuf h with
    | none => none
    | some h1 => h1.dealloc ct.2.urbPtr boxedUrbLayout

/-! Concrete fixtures used by the lifecycle theorems and witnesses. -/

/-- An errno table mapping every code to a stall, for concrete runs. -/
def tblStall : ErrTable := fun _ => some TransferError.Stall

/-- An errno table knowing only code 32, for concrete runs. -/
def tblKnown : ErrTable := fun n => if n = 32 then some TransferError.Stall else none

/-- A freshly constructed bulk Out descriptor (endpoint 0x02). -/
def tdFresh : TransferData := (TransferData.new 0x02 TransferType.Bulk Heap.empty).1

/-- A sample caller buffer with a non-default allocator tag. -/
def bufSample : Buffer := ⟨1001, 4, 4, 9, Allocator.Tagged 5⟩

/-- A freshly constructed isochronous In descriptor (endpoint 0x81). -/
def isoT0 : TransferData := (TransferData.new 0x81 TransferType.Isochronous Heap.empty).1

/-- The heap after constructing isoT0. -/
def isoH0 : Heap := (TransferData.new 0x81 TransferType.Isochronous Heap.empty).2

/-- A 6-byte caller buffer allocated after isoT0. -/
def isoBuf : Buffer := (Buffer.new 6 isoH0).1

/-- The heap after allocating isoBuf. -/
def isoH0b : Heap := (Buffer.new 6 isoH0).2

/-- The descriptor produced by attaching isoBuf as 2 packets of size 3. -/
def isoT1 : TransferData :=
  { urbPtr := 1002,
    urb := { ep_type := 0, endpoint := 129, status := 0, flags := 2, buffer := 1001,
             buffer_length := 6, actual_length := 0, start_frame := 0,
             number_of_packets_or_stream_id := 2, error_count := 0, signr := 0,
             usercontext := 777 },
    packets := [⟨3, 0, 0⟩, ⟨3, 0, 0⟩],
    urbIso := some 1066, ep_type := TransferType.Isochronous, capacity := 6,
    allocator := Allocator.Default }

/-- The heap after the iso attach: the urb block is now the combined
header plus 2-record array allocation of layout ⟨88, 8⟩. -/
def isoH1 : Heap := ⟨1003, [(1002, ⟨88, 8⟩), (1001, ⟨6, 1⟩)]⟩

/-- Construct an iso descriptor and attach a 2-packet iso buffer. -/
def iso_attach : Option (TransferData × Heap) := isoT0.set_iso_buffer isoBuf 2 3 isoH0b

/-- The iso attach, then destruction of the descriptor. -/
def iso_cycle : Option Heap :=
  match iso_attach with
  | none => none
  | some th => th.1.dropD tblStall th.2

/-- The iso attach, completion extraction, and a second iso attach of the
returned buffer (the re-attach exercising the old-block release branch). -/
def iso_reattach : Option (TransferData × Heap) :=
  match iso_attach with
  | none => none
  | some th =>
    match th.1.take_completion tblStall with
    | none => none
    | some ct => ct.2.set_iso_buffer ct.1.buffer 2 3 th.2

/-- One construct, attach, destroy cycle on a bulk endpoint. -/
def bulk_cycle : Option Heap :=
  let s0 := TransferData.new 0x02 TransferType.Bulk Heap.empty
  let b0 := Buffer.new 5 s0.2
  match s0.1.set_buffer b0.1 with
  | none => none
  | some t1 => t1.dropD tblStall b0.2

/-! Helper lemmas shared by the claim theorems. -/

/-- The u32 reinterpretation of the i32 value 0 is 0. -/
theorem u32_of_i32_zero : u32_of_i32 0 = 0 := by decide

/-- Every packet record in a prefix of a freshly initialized record array
reports status zero. -/
theorem all_status_zero_take_replicate (m n len : Nat) :
    ((List.replicate n ({ length := len, actual_length := 0, status := 0 } :
      IsoPacketDesc)).take m).all (fun p => p.status == 0) = true := by
  apply List.all_eq_true.mpr
  intro x hx
  have hm := List.mem_of_mem_take hx
  have hx2 := (List.mem_replicate.mp hm).2
  subst hx2
  rfl

/-- Equation form of set_buffer on a descriptor owning no buffer. -/
theorem set_buffer_eq (t : TransferData) (b : Buffer) (hcap : t.capacity = 0) :
    t.set_buffer b = some
      { t with
        capacity := b.capacity,
        urb := { t.urb with
                  buffer := b.ptr,
                  actual_length := 0,
                  buffer_length :=
                    match Direction.from_address t.urb.endpoint with
                    | Direction.Out => i32_of_usize b.len
                    | Direction.In => i32_of_usize b.requested_len },
        allocator := b.allocator } := by
  unfold TransferData.set_buffer
  rw [if_pos hcap]

/-- Equation form of take_completion when the status decodes. -/
theorem take_completion_eq (tbl : ErrTable) (t : TransferData)
    (st : Except TransferError Unit)
    (hdec : decode_status tbl t.urb.status = some st) :
    t.take_completion tbl = some
      ({ status := st,
         actual_len := usize_of_i32 t.urb.actual_length,
         buffer :=
           { ptr := t.urb.buffer,
             len := match Direction.from_address t.urb.endpoint with
                    | Direction.Out => u32_of_i32 t.urb.buffer_length
                    | Direction.In => u32_of_i32 t.urb.actual_length,
             requested_len := u32_of_i32 t.urb.buffer_length,
             capacity := t.capacity,
             allocator := t.allocator } },
       { t with
         urb := { t.urb with
                   buffer := emptyVecPtr,
                   buffer_length := 0,
                   actual_length := 0 },
         capacity := 0,
         allocator := Allocator.Default }) := by
  unfold TransferData.take_completion
  rw [hdec]

/-- C9: set_buffer succeeds exactly on a descriptor that currently owns no
buffer (capacity = 0); on a descriptor with nonzero capacity the debug
assertion rejects the call as a contract violation, and under the
precondition it never fires. -/
theorem set_buffer_requires_no_attached_buffer (t : TransferData) (b : Buffer) :
    (t.set_buffer b).isSome = true ↔ t.capacity = 0 := by
  unfold TransferData.set_buffer
  split <;> simp_all

/-- C1: attaching a buffer to a descriptor owning no buffer and then
extracting the completion returns a Completion whose buffer has the same
capacity and the same allocator identity tag as the attached buffer. -/
theorem set_buffer_take_completion_roundtrip (tbl : ErrTable) (t : TransferData)
    (b : Buffer) (hcap : t.capacity = 0)
    (hst : (decode_status tbl t.urb.status).isSome = true) :
    ∃ t1 c t2, t.set_buffer b = some t1 ∧ t1.take_completion tbl = some (c, t2) ∧
      c.buffer.capacity = b.capacity ∧ c.buffer.allocator = b.allocator := by
  obtain ⟨st, hdec⟩ := Option.isSome_iff_exists.mp hst
  exact ⟨_, _, _, set_buffer_eq t b hcap, take_completion_eq tbl _ st hdec, rfl, rfl⟩

/-- C2: completion extraction is idempotent: a second take_completion on
the same descriptor yields a Completion whose buffer is empty (zero
length, zero requested length, zero capacity), holds the detached
placeholder pointer rather than the previously detached buffer, and
carries the default allocator tag (so its release frees nothing). -/
theorem take_completion_idempotent_empty (tbl : ErrTable) (t : TransferData)
    (hst : (decode_status tbl t.urb.status).isSome = true) :
    ∃ c1 t1 c2 t2,
      t.take_completion tbl = some (c1, t1) ∧
      t1.take_completion tbl = some (c2, t2) ∧
      c2.buffer.len = 0 ∧ c2.buffer.requested_len = 0 ∧ c2.buffer.capacity = 0 ∧
      c2.buffer.ptr = emptyVecPtr ∧ c2.buffer.allocator = Allocator.Default := by
  obtain ⟨st, hdec⟩ := Option.isSome_iff_exists.mp hst
  refine ⟨_, _, _, _, take_completion_eq tbl t st hdec,
    take_completion_eq tbl _ st hdec, ?_, u32_of_i32_zero, rfl, rfl, rfl⟩
  cases Direction.from_address t.urb.endpoint <;> exact u32_of_i32_zero

/-- C5: the by-direction length in the Completion returned by
take_completion is selected by the top bit of the endpoint address:
outbound (bit clear) reports the requested send length (buffer_length),
inbound (bit set) reports the kernel actual length. -/
theorem take_completion_len_by_endpoint_top_bit (tbl : ErrTable) (t : TransferData)
    (hst : (decode_status tbl t.urb.status).isSome = true) :
    ∃ c t2, t.take_completion tbl = some (c, t2) ∧
      (t.urb.endpoint &&& 0x80 = 0 → c.buffer.len = u32_of_i32 t.urb.buffer_length) ∧
      (t.urb.endpoint &&& 0x80 ≠ 0 → c.buffer.len = u32_of_i32 t.urb.actual_length) := by
  obtain ⟨st, hdec⟩ := Option.isSome_iff_exists.mp hst
  refine ⟨_, _, take_completion_eq tbl t st hdec, ?_, ?_⟩
  · intro h0
    have hd : Direction.from_address t.urb.endpoint = Direction.Out := by
      unfold Direction.from_address; rw [if_pos h0]
    simp only [hd]
  · intro h0
    have hd : Direction.from_address t.urb.endpoint = Direction.In := by
      unfold Direction.from_address; rw [if_neg h0]
    simp only [hd]

/-- C6: decoding a raw status representable together with its negation:
success exactly on 0, a known table entry for the absolute value yields
the corresponding error kind, and decoding v and -v agree. -/
theorem decode_status_zero_success_abs_table_sign_invariant (tbl : ErrTable)
    (s : Int) (hlo : i32Min < s) (hhi : s < 2 ^ 31) :
    (decode_status tbl s = some (Except.ok ()) ↔ s = 0) ∧
    (∀ e, s ≠ 0 → tbl s.natAbs = some e →
      decode_status tbl s = some (Except.error e)) ∧
    decode_status tbl s = decode_status tbl (-s) := by
  have hsmin : s ≠ i32Min := ne_of_gt hlo
  have habs : abs_i32 s = some s.natAbs := by unfold abs_i32; rw [if_neg hsmin]
  refine ⟨⟨?_, ?_⟩, ?_, ?_⟩
  · intro hok
    by_contra hs
    unfold decode_status at hok
    rw [if_neg hs, habs] at hok
    cases htbl : tbl s.natAbs <;> simp [htbl] at hok
  · intro hs
    simp [decode_status, hs]
  · intro e hs htbl
    unfold decode_status
    rw [if_neg hs]
    simp only [habs, htbl]
  · by_cases hs : s = 0
    · rw [hs]
      norm_num
    · have hns : -s ≠ 0 := neg_ne_zero.mpr hs
      have hnsmin : -s ≠ i32Min := by
        intro hEq
        unfold i32Min at hEq
        norm_num at hEq hhi
        omega
      have habs2 : abs_i32 (-s) = some s.natAbs := by
        unfold abs_i32
        rw [if_neg hnsmin, Int.natAbs_neg]
      unfold decode_status
      rw [if_neg hs, if_neg hns, habs, habs2]

/-- C10: status decoding is not total over the i32 range: at the single
raw value i32::MIN the absolute-value step overflows and the decode
aborts; at every other raw value the absolute-value step is defined. -/
theorem status_abs_overflow_at_i32_min (tbl : ErrTable) (s : Int)
    (hne : s ≠ i32Min) :
    abs_i32 i32Min = none ∧ decode_status tbl i32Min = none ∧
    (abs_i32 s).isSome = true := by
  have h1 : abs_i32 i32Min = none := by unfold abs_i32; rw [if_pos rfl]
  refine ⟨h1, ?_, ?_⟩
  · unfold decode_status
    rw [if_neg (by unfold i32Min; norm_num), h1]
  · unfold abs_i32
    rw [if_neg hne]
    rfl

/-- C8: constructing a control transfer whose setup-header size plus
payload (or requested) length overflows the platform size type fails
construction; within range, construction succeeds. -/
theorem control_construction_fails_on_size_overflow (dataLen reqLen : Nat)
    (h h2 : Heap) :
    (USIZE_MAX < SETUP_PACKET_SIZE + dataLen →
      TransferData.new_control_out dataLen h = none) ∧
    (USIZE_MAX < SETUP_PACKET_SIZE + reqLen →
      TransferData.new_control_in reqLen h2 = none) ∧
    (SETUP_PACKET_SIZE + dataLen ≤ USIZE_MAX →
      (TransferData.new_control_out dataLen h).isSome = true) := by
  refine ⟨?_, ?_, ?_⟩
  · intro hb
    have hc : checked_add SETUP_PACKET_SIZE dataLen = none := by
      unfold checked_add; rw [if_neg (Nat.not_le.mpr hb)]
    unfold TransferData.new_control_out
    simp only [hc]
  · intro hb
    have hc : checked_add SETUP_PACKET_SIZE reqLen = none := by
      unfold checked_add; rw [if_neg (Nat.not_le.mpr hb)]
    unfold TransferData.new_control_in
    simp only [hc]
  · intro hb
    have hc : checked_add SETUP_PACKET_SIZE dataLen =
        some (SETUP_PACKET_SIZE + dataLen) := by
      unfold checked_add; rw [if_pos hb]
    unfold TransferData.new_control_out
    simp only [hc]
    simp [TransferData.new, Buffer.new, TransferData.set_buffer]

/-- C7: whenever set_iso_buffer completes, it has produced exactly n
packet records each initialized to (length = s, actual length = 0,
status = 0) and end_iso then reports all-succeeded; end_iso reports
failure as soon as any read record has nonzero status, and reports
no-value on every non-isochronous descriptor. -/
theorem set_iso_buffer_packet_records_and_end_iso (t : TransferData) (b : Buffer)
    (n s : Nat) (h : Heap) (t1 : TransferData) (h1 : Heap)
    (hn : 0 < n) (hs : 0 < s)
    (hrun : t.set_iso_buffer b n s h = some (t1, h1)) :
    t1.packets = List.replicate n ⟨s, 0, 0⟩ ∧
    t1.end_iso = some true ∧
    (∀ u : TransferData, u.ep_type = TransferType.Isochronous →
      u.urb.number_of_packets_or_stream_id = u.packets.length →
      (∃ p, p ∈ u.packets ∧ p.status ≠ 0) → u.end_iso = some false) ∧
    (∀ u : TransferData, u.ep_type ≠ TransferType.Isochronous →
      u.end_iso = none) := by
  unfold TransferData.set_iso_buffer at hrun
  split at hrun
  · exact Option.noConfusion hrun
  rename_i hiso0
  have hiso : t.ep_type = TransferType.Isochronous := not_not.mp hiso0
  split at hrun
  · exact Option.noConfusion hrun
  split at hrun
  all_goals simp only [] at hrun
  all_goals split at hrun
  any_goals exact Option.noConfusion hrun
  all_goals split at hrun
  any_goals exact Option.noConfusion hrun
  all_goals rename_i t2 hsb
  all_goals unfold TransferData.set_buffer at hsb
  all_goals split at hsb
  any_goals exact Option.noConfusion hsb
  all_goals (
    replace hsb := Option.some.inj hsb
    subst hsb
    injection Option.some.inj hrun with ha hb
    subst ha
    subst hb
    refine ⟨rfl, ?_, ?_, ?_⟩
    · simp [TransferData.end_iso, hiso, all_status_zero_take_replicate]
    · intro u hu hnum hex
      obtain ⟨p, hp, hps⟩ := hex
      unfold TransferData.end_iso
      rw [if_pos hu, hnum, List.take_length]
      have hall : u.packets.all (fun p => p.status == 0) = false := by
        apply List.all_eq_false.mpr
        exact ⟨p, hp, by simp [hps]⟩
      rw [hall]
    · intro u hu
      unfold TransferData.end_iso
      rw [if_neg hu])

/-- C4: on re-attaching an isochronous buffer, the old combined
header+array block (layout ⟨88, 8⟩ for 2 records) sits live in the heap,
yet the inverted urb_iso branch releases it through the Box path with the
header-only layout, a mismatched deallocation; the concrete re-attach run
therefore faults instead of releasing the old block correctly. -/
theorem set_iso_buffer_old_block_release_branch_inverted :
    iso_reattach = none ∧
    (iso_attach.map (fun th => th.1.urbIso.isSome)) = some true ∧
    (iso_attach.map (fun th => th.2.live.lookup th.1.urbPtr)) =
      some (some (combinedLayout 2)) ∧
    combinedLayout 2 ≠ boxedUrbLayout := by
  refine ⟨rfl, rfl, rfl, by decide⟩

/-- C3: destroying an isochronous descriptor whose urb is the combined
header+array allocation releases that block with the header-only boxed
layout, a mismatched deallocation, so the concrete
construct-attach-destroy cycle faults; the same cycle on a bulk
descriptor releases every allocation exactly once (empty live set). -/
theorem drop_iso_frees_combined_block_with_boxed_layout :
    iso_cycle = none ∧
    (iso_attach.map (fun th => th.2.live.lookup th.1.urbPtr)) =
      some (some (combinedLayout 2)) ∧
    combinedLayout 2 ≠ boxedUrbLayout ∧
    bulk_cycle.map Heap.live = some [] := by
  refine ⟨rfl, rfl, by decide, rfl⟩

/-- Witness for C1 at a concrete fresh bulk descriptor and a concrete
buffer with a non-default allocator tag. -/
theorem set_buffer_take_completion_roundtrip_witness :
    tdFresh.capacity = 0 ∧
    (decode_status tblStall tdFresh.urb.status).isSome = true ∧
    ∃ t1 c t2, tdFresh.set_buffer bufSample = some t1 ∧
      t1.take_completion tblStall = some (c, t2) ∧
      c.buffer.capacity = bufSample.capacity ∧
      c.buffer.allocator = bufSample.allocator :=
  ⟨by decide, by decide,
   set_buffer_take_completion_roundtrip tblStall tdFresh bufSample (by decide) (by decide)⟩

/-- Witness for C2 at a concrete fresh bulk descriptor. -/
theorem take_completion_idempotent_empty_witness :
    (decode_status tblStall tdFresh.urb.status).isSome = true ∧
    ∃ c1 t1 c2 t2,
      tdFresh.take_completion tblStall = some (c1, t1) ∧
      t1.take_completion tblStall = some (c2, t2) ∧
      c2.buffer.len = 0 ∧ c2.buffer.requested_len = 0 ∧ c2.buffer.capacity = 0 ∧
      c2.buffer.ptr = emptyVecPtr ∧ c2.buffer.allocator = Allocator.Default :=
  ⟨by decide, take_completion_idempotent_empty tblStall tdFresh (by decide)⟩

/-- Witness for C5 at a concrete fresh bulk descriptor. -/
theorem take_completion_len_by_endpoint_top_bit_witness :
    (decode_status tblStall tdFresh.urb.status).isSome = true ∧
    ∃ c t2, tdFresh.take_completion tblStall = some (c, t2) ∧
      (tdFresh.urb.endpoint &&& 0x80 = 0 →
        c.buffer.len = u32_of_i32 tdFresh.urb.buffer_length) ∧
      (tdFresh.urb.endpoint &&& 0x80 ≠ 0 →
        c.buffer.len = u32_of_i32 tdFresh.urb.actual_length) :=
  ⟨by decide, take_completion_len_by_endpoint_top_bit tblStall tdFresh (by decide)⟩

/-- Witness for C6 at raw status 32 under a table knowing only code 32. -/
theorem decode_status_zero_success_abs_table_sign_invariant_witness :
    i32Min < 32 ∧ (32 : Int) < 2 ^ 31 ∧
    ((decode_status tblKnown 32 = some (Except.ok ()) ↔ (32 : Int) = 0) ∧
     (∀ e, (32 : Int) ≠ 0 → tblKnown (32 : Int).natAbs = some e →
       decode_status tblKnown 32 = some (Except.error e)) ∧
     decode_status tblKnown 32 = decode_status tblKnown (-32)) :=
  ⟨by decide, by decide,
   decode_status_zero_success_abs_table_sign_invariant tblKnown 32 (by decide) (by decide)⟩

/-- Witness for C7 at the concrete iso attach fixture (2 packets of 3). -/
theorem set_iso_buffer_packet_records_and_end_iso_witness :
    0 < 2 ∧ 0 < 3 ∧
    isoT0.set_iso_buffer isoBuf 2 3 isoH0b = some (isoT1, isoH1) ∧
    (isoT1.packets = List.replicate 2 ⟨3, 0, 0⟩ ∧
     isoT1.end_iso = some true ∧
     (∀ u : TransferData, u.ep_type = TransferType.Isochronous →
       u.urb.number_of_packets_or_stream_id = u.packets.length →
       (∃ p, p ∈ u.packets ∧ p.status ≠ 0) → u.end_iso = some false) ∧
     (∀ u : TransferData, u.ep_type ≠ TransferType.Isochronous →
       u.end_iso = none)) :=
  ⟨by decide, by decide, by decide,
   set_iso_buffer_packet_records_and_end_iso isoT0 isoBuf 2 3 isoH0b isoT1 isoH1
     (by decide) (by decide) (by decide)⟩

/-- Witness for C8 at an overflowing and a small in-range size. -/
theorem control_construction_fails_on_size_overflow_witness :
    USIZE_MAX < SETUP_PACKET_SIZE + 2 ^ 64 ∧
    SETUP_PACKET_SIZE + 4 ≤ USIZE_MAX ∧
    TransferData.new_control_out (2 ^ 64) Heap.empty = none ∧
    TransferData.new_control_in (2 ^ 64) Heap.empty = none ∧
    (TransferData.new_control_out 4 Heap.empty).isSome = true :=
  ⟨by decide, by decide,
   (control_construction_fails_on_size_overflow (2 ^ 64) (2 ^ 64) Heap.empty Heap.empty).1
     (by decide),
   (control_construction_fails_on_size_overflow (2 ^ 64) (2 ^ 64) Heap.empty Heap.empty).2.1
     (by decide),
   (control_construction_fails_on_size_overflow 4 0 Heap.empty Heap.empty).2.2
     (by decide)⟩

/-- Witness for C10 at the raw status 5. -/
theorem status_abs_overflow_at_i32_min_witness :
    (5 : Int) ≠ i32Min ∧
    (abs_i32 i32Min = none ∧ decode_status tblStall i32Min = none ∧
     (abs_i32 5).isSome = true) :=
  ⟨by decide, status_abs_overflow_at_i32_min tblStall 5 (by decide)⟩
